import Mathlib

/-!
Verification development for the gpt-chess script (`main.py`).

The script orchestrates a chess game between a Stockfish-backed player and an
LLM-backed player.  Chess rules, move parsing and engine communication are
delegated to external collaborators (the `chess` library, a UCI engine
subprocess, and a text-generation service); following §6 of the design
document we model those collaborators as abstract interfaces carrying exactly
the ground-truth facts the document grants them, and translate the script
itself on top of that interface.
-/

namespace GptChess

/-- Abstract interface of the external chess-rules collaborator
    (`chess.Board` / `chess.Move` from the `chess` library), together with
    the ground-truth contract the design document grants it (§4.1, §6):
    parsing only succeeds on legal moves, non-terminal positions have legal
    moves, and terminal positions have a decided result string. -/
structure ChessLib where
  Pos : Type
  Move : Type
  /-- `chess.Board()`: the standard initial position. -/
  start : Pos
  /-- `Board.parse_san(text)`: parses SAN (or fully-specified coordinate)
      text, `none` models the raised `InvalidMoveError`/`IllegalMoveError`
      when the text denotes no legal move in the position. -/
  parse_san : Pos → String → Option Move
  /-- `Board.san(move)`: the algebraic rendering of a move in a position. -/
  san : Pos → Move → String
  /-- `Board.push(move)`: the position after playing a move. -/
  push : Pos → Move → Pos
  /-- `Board.generate_legal_moves()` as a list. -/
  generate_legal_moves : Pos → List Move
  /-- `str(move)`: the UCI rendering of a move. -/
  move_str : Move → String
  /-- `Board.turn`: `true` iff white is to move. -/
  turn : Pos → Bool
  /-- `Board.is_game_over()`. -/
  is_game_over : Pos → Bool
  /-- `Board.result()`: one of "1-0", "0-1", "1/2-1/2", or "*" while
      unfinished. -/
  result : Pos → String
  /-- `str(board)`: the plain-text board rendering. -/
  board_str : Pos → String
  /-- `Board.move_stack`: the moves played so far, in order. -/
  move_stack : Pos → List Move
  /-- Contract: text that parses denotes a legal move in the position. -/
  parse_legal : ∀ p s m, parse_san p s = some m → m ∈ generate_legal_moves p
  /-- Contract: a non-terminal position has at least one legal move. -/
  nonterminal_moves : ∀ p, is_game_over p = false → generate_legal_moves p ≠ []
  /-- Contract: a finished game has a decided result string, never `"*"`. -/
  result_terminal : ∀ p, is_game_over p = true →
    result p = "1-0" ∨ result p = "0-1" ∨ result p = "1/2-1/2"

variable (L : ChessLib)

/-- `class ChessBoard(chess.Board)` — the underlying library position plus
    the script's own `algebraic_history` list set up in `__init__`. -/
structure ChessBoard where
  base : L.Pos
  algebraic_history : List String

/-- `ChessBoard()` — `__init__` calls `super().__init__()` and sets
    `self.algebraic_history = []`. -/
def ChessBoard.init : ChessBoard L :=
  { base := L.start, algebraic_history := [] }

/-- `ChessBoard.waiting_on` — `"white" if self.turn else "black"`. -/
def waiting_on (b : ChessBoard L) : String :=
  if L.turn b.base then "white" else "black"

/-- `ChessBoard.submit_move`, statement by statement.  The first component of
    the result is the board object after the call returns or raises; the
    second is `some err` when an exception propagates to the caller (Python
    mutations performed before the raise persist, which the sequencing makes
    explicit).  `push_san` re-parses its text argument before pushing, hence
    the second `parse_san`. -/
def submit_move (b : ChessBoard L) (move : String) :
    ChessBoard L × Option String :=
  match L.parse_san b.base move with
  | none => (b, some "InvalidMoveError")
  | some algebraic_move =>
    let algebraic := L.san b.base algebraic_move
    let b1 : ChessBoard L :=
      { b with algebraic_history := b.algebraic_history ++ [algebraic] }
    match L.parse_san b1.base move with
    | none => (b1, some "InvalidMoveError")
    | some m2 => ({ b1 with base := L.push b1.base m2 }, none)

/-- `ChessBoard.get_move_history` — `[str(move) for move in self.move_stack]`,
    i.e. the UCI renderings of the move stack.  This operation exists only
    as a method; `main.py` defines no module-level function of this name. -/
def get_move_history (b : ChessBoard L) : List String :=
  (L.move_stack b.base).map L.move_str

/-- `get_possible_moves` — `[str(move) for move in board.generate_legal_moves()]`. -/
def get_possible_moves (p : L.Pos) : List String :=
  (L.generate_legal_moves p).map L.move_str

/-- The ASCII single-quote character, as used by Python `repr` of a string. -/
def sq : String := String.mk [Char.ofNat 39]

/-- Python `str` of a list of strings, as interpolated by an f-string:
    `['e2e4', 'e7e5']`. -/
def pyStrList (l : List String) : String :=
  "[" ++ String.intercalate ", " (l.map (fun s => sq ++ s ++ sq)) ++ "]"

/-- The piece table of `prettify_board`.  Each pattern and each replacement
    is a single character, so Python `str.replace` coincides with a
    character-by-character substitution. -/
def pieces : List (Char × Char) :=
  [('r', '♜'), ('n', '♞'), ('b', '♝'), ('q', '♛'), ('k', '♚'), ('p', '♟'),
   ('R', '♖'), ('N', '♘'), ('B', '♗'), ('Q', '♕'), ('K', '♔'), ('P', '♙')]

/-- Python `row.replace(c₁, c₂)` for one-character pattern and replacement. -/
def pyCharReplace (s : String) (a b : Char) : String :=
  String.mk (s.data.map fun c => if c = a then b else c)

/-- Python `str.splitlines()` for a `\n`-separated rendering with no
    trailing newline, which is the shape `str(board)` has. -/
def splitlines (s : String) : List String :=
  s.splitOn "\n"

/-- `prettify_board` — header row, then each board row with its pieces
    replaced by unicode glyphs and prefixed by `f"{8-i} "`. -/
def prettify_board (p : L.Pos) : String :=
  let rows := (splitlines (L.board_str p)).enum.map (fun ir =>
    let row := pieces.foldl (fun r pc => pyCharReplace r pc.1 pc.2) ir.2
    toString (8 - (ir.1 : Int)) ++ " " ++ row)
  String.intercalate "\n" ("  a b c d e f g h" :: rows)

/-- The abstract text-generation collaborator (§6): free-form completion
    (calling the `models.openai(...)` handle on a prompt) and constrained
    choice (`outlines.generate.choice(model, choices)` applied to a
    prompt, whose output is drawn from `choices`). -/
structure TextGen where
  complete : String → String
  choose : String → List String → String

/-- One observable request to the text-generation collaborator. -/
inductive LLMCall where
  | completeCall (prompt : String)
  | chooseCall (prompt : String) (choices : List String)

/-- Number of constrained-choice requests in a call trace. -/
def chooseCount (calls : List LLMCall) : Nat :=
  calls.countP fun c => match c with
    | .chooseCall _ _ => true
    | _ => false

/-- `class OpenAI(Player)` — holds the model handle from `models.openai`. -/
structure OpenAI where
  model : TextGen

/-- The f-string prompt of `OpenAI.get_move` (`main.py` lines 85–103),
    byte for byte, with the three interpolations made explicit. -/
def openai_prompt (b : ChessBoard L) : String :=
  "\nYou are a chess grandmaster playing in the world chess championship.\nThe game has progressed as follows:\n\n```move_history\n"
  ++ pyStrList (get_move_history L b)
  ++ "\n```\n\nAnd now the board is in the following position:\n\n```current_board\n"
  ++ prettify_board L b.base
  ++ "\n```\n\n"
  ++ (waiting_on L b).toUpper
  ++ " to move.\n\nDetermine the next best move. Return only the next best\nmove; no explanation of any kind. Use UCI notation.\n        "

/-- `OpenAI.get_move` — computes the legal-move list, builds the constrained
    generator over it, builds the prompt, and returns the generator's output.
    Result: (returned move text, the board object as the method leaves it,
    text-generation calls issued). -/
def OpenAI.get_move (p : OpenAI) (b : ChessBoard L) :
    String × ChessBoard L × List LLMCall :=
  let valid_moves := get_possible_moves L b.base
  let prompt := openai_prompt L b
  let move := p.model.choose prompt valid_moves
  (move, b, [.chooseCall prompt valid_moves])

/-- The module-level name `get_move_history` that `ai_move` references:
    `main.py` never defines such a global (the operation exists only as the
    `ChessBoard` method), so evaluating the reference raises `NameError`
    before anything is called. -/
def get_move_history_global : Except String (List String) :=
  Except.error "NameError"

/-- The module-level name `waiting_on` that `ai_move` references: likewise
    undefined in `main.py`, so evaluating it raises `NameError`. -/
def waiting_on_global : Except String String :=
  Except.error "NameError"

/-- The analysis f-string of `ai_move` (`main.py` lines 111–129), with its
    interpolations evaluated in source order.  The first interpolation,
    `get_move_history(board)`, references an undefined module-level name,
    so the construction raises `NameError` on every call and no prompt
    string is ever produced; the `ok` continuation records the text the
    author's literal describes (`textwrap.dedent` is the identity on it:
    every line is already flush left). -/
def ai_move_raw_prompt (b : ChessBoard L) : Except String String := do
  let hist ← get_move_history_global
  let pretty := prettify_board L b.base
  let wo ← waiting_on_global
  return "\nYou are a chess grandmaster playing in the world chess championship.\nThe game has progressed as follows:\n\n```move_history\n"
    ++ pyStrList hist
    ++ "\n```\n\nAnd now the board is in the following position:\n\n```current_board\n"
    ++ pretty
    ++ "\n```\n\n"
    ++ wo.toUpper
    ++ " to move.\n\nDetermine the best line. Think as many steps ahead as\nyou can. Explain your reasoning. Use UCI notation.\n"

/-- The fixed middle section of the `choice_prompt` f-string of `ai_move`
    (`main.py` lines 136–278): everything between the interpolated move
    history and the interpolated analysis text, byte for byte (ASCII
    apostrophes written `\x27`, the one U+2019 written `’`; several
    lines carry trailing spaces exactly as in the source). -/
def choice_prompt_examples : String :=
  "\n\nYour job is to extract the next move in the game from a text
summary, which is below. Provide this move in UCI notation.
Do not provide explanations of any kind. Do not provide multiple moves

Example 1 (Good):

    Explanation:

        Thus far the game has progressed as follows:

        1. Nf3 Nf6 2. c4 g6 3. Nc3 Bg7 4. d4 O-O 5. Bf4 d5 6. Qb3 dxc4
        7. Qxc4 c6 8. e4 Nbd7 9. Rd1 Nb6 10. Qc5 Bg4 11. Bg5 Na4 12. Qa3
        Nxc3 13. bxc3 Nxe4 14. Bxe7 Qb6 15. Bc4 Nxc3 16. Bc5 Rfe8+ 17. Kf1

        Unintuitive as it may seem, Be6!! is the best move. The idea is to offer
        the queen in exchange for a fierce attack with minor pieces. Declining this
        offer is not: 18. Bxe6 leads to a \x27Philidor Mate\x27 (smothered mate) with ...Qb5+ 19. Kg1 Ne2+ 20. Kf1 Ng3+ 21. Kg1 Qf1+ 22. Rxf1 Ne2#. Other ways to decline the queen also run into trouble: e.g., 18. Qxc3 Qxc5

    Answer:

        g4e6


Example 2 (Bad):

    Explanation:

        In the given position, it\x27s Black\x27s turn to move, and the board looks like this:

        ```
          a b c d e f g h
        8 r n b q k b . r
        7 p p p p . p p p
        6 . . . . . n . .
        5 . . . . p . . .
        4 . . P P . . . .
        3 . . . . P . . .
        2 P P . . . P P P
        1 R N B Q K B N R
        ```

        As Black, a strong move here is **...dxc4**. This move captures the pawn on c4, gaining a material advantage and undermining White\x27s pawn structure in the center.

    Answer:

        dxc4

    Why is this answer wrong?

        The answer should be in UCI notation. \x27d7c4\x27 is the correct answer.


Example 3 (Good):

    Explanation:

        Opening with 1. e4 is one of the most common and traditional choices for White. It sets up for open games, including the Spanish game (Ruy Lopez), Italian game, King\x27s Gambit, etc., depending on Black\x27s responses.

        1... c5 (Sicilian Defense)

           1.2. Nf3 and d4 to take control of the center. But the Sicilian Defense is known for creating an imbalanced game that gives both players chances for a win.

        1... e5 (Open Game)

          1.2. Nf3 aiming to attack the pawn at e5. If Black tries to protect the pawn, several promising lines such as Ruy Lopez and the Italian Game can occur.
        1... e6 (French Defense)

          1.2. d4 to dominate the center. This can lead to complex battles, some lines include the Advance, Tarrasch, and Winawer Variations.

        1... c6 (Caro-Kann Defense)

          1.2. d4 to hold the center, followed by 1. Nc3 or Nf3, depending on the black response. Both response leads to dynamic and strategic plans for both sides.

        1... d6 (Pirc Defense)

          2. d4 pushing the dominance in the center. 2. Nc3, Be3, or Nf3 can follow.

    Answer:

        e4


Example 4 (Bad):

    Explanation:

        Let’s analyze the current position carefully. The board is set up as follows:

        ```
        8 r n b . . . . r
        7 p p p k . p p .
        6 . . . . . . . .
        5 . . . Q . . . p
        4 P . . P . . . .
        3 . . P . P N . .
        2 . . . . B . P P
        1 R N . . K . . R
        ```

        **Best Move:**
        **Qe2 - Moving Queen back to e2 (defensive move)**

        **Explanation of Best Move:**
        - **Defensive Support:** This reinforces the defense against threats to the black king while helping shift the dynamic. The queen stays connected to the center and controls c4.
        - Any push you\x27d consider missing this opportunity leaves the king open to checks.

        While conceding material, it balances the board\x27s activities and offers tactical chances in the next few moves to work towards safety. Going forward after this, options must be limited to strategic control over the center, developing pieces, and maybe commencing a pawn storm.

    Answer:

        d7e8

    Why is this answer wrong?

        d7e8 is not the suggested move. The suggested is Qe2, which is
        <> in UCI notation.

Example 5 (Good):

    Explanation:

        Thus far the game has progressed as follows:

        1. e4 e5 2. Nf3 d6 3. d4 Bg4?! 4. dxe5 Bxf3 5. Qxf3 dxe5 6. Bc4 Nf6? 7. Qb3

        Qe7 is the only good move. White is threatening mate in two moves,
        for example 7...Nc6 8.Bxf7+ Ke7 (or Kd7) 9.Qe6#. 7...Qd7 loses the
        rook to 8.Qxb7 followed by 9.Qxa8 (since 8...Qc6? would lose
        the queen to 9.Bb5). Notice that 7...Qe7 saves the rook with
        this combination: 8.Qxb7 Qb4+ forcing a queen exchange.

        Although this move prevents immediate disaster, I will be forced to block
        the f8-bishop, impeding development and kingside castling.

    Answer:

        d8e7


Your task is below.

Explanation:

"
/-- The full `choice_prompt` f-string of `ai_move` (`main.py` lines
    132–283): leading text, interpolated move history, the fixed examples
    section, the interpolated analysis, and the trailing answer cue.  Its
    move-history interpolation also references the undefined module-level
    `get_move_history`, so evaluating this f-string would likewise raise
    `NameError` (in the program it is never reached: the analysis f-string
    has already raised). -/
def ai_move_choice_prompt (b : ChessBoard L) (next_move_explanation : String) :
    Except String String := do
  let hist ← get_move_history_global
  return "\nYou are transcribing a chess sequence. The game thus far is as follows:\n\n"
    ++ pyStrList hist
    ++ choice_prompt_examples
    ++ next_move_explanation
    ++ "\n\nAnswer:\n"

/-- `ai_move` (`main.py` lines 109–293), with the error path explicit: the
    very first statement that runs, the analysis f-string evaluation,
    raises `NameError` (undefined module-level `get_move_history`), so
    every call surfaces that error to the caller before any model request
    is issued.  The dead continuations mirror the remaining source
    statements: the free-text analysis request, the choice-prompt
    construction, and the constrained-choice request over the legal moves.
    Result: (the returned move text or the surfaced error, the
    text-generation calls actually issued, in order). -/
def ai_move (g : TextGen) (b : ChessBoard L) :
    Except String String × List LLMCall :=
  match ai_move_raw_prompt L b with
  | Except.error e => (Except.error e, [])
  | Except.ok raw_prompt =>
    let next_move_explanation := g.complete raw_prompt
    match ai_move_choice_prompt L b next_move_explanation with
    | Except.error e => (Except.error e, [.completeCall raw_prompt])
    | Except.ok choice_prompt =>
      let valid_moves := get_possible_moves L b.base
      let move := g.choose choice_prompt valid_moves
      (Except.ok move,
       [.completeCall raw_prompt, .chooseCall choice_prompt valid_moves])

/-- `random.choice(seq)` — the element at a uniformly random index, `none`
    modelling the `IndexError` raised on an empty sequence.  The generator
    state is the `seed` argument; the index is the seed reduced modulo the
    length, so a uniformly distributed seed yields a uniformly distributed
    index into the sequence. -/
def random_choice (l : List String) (seed : Nat) : Option String :=
  l.get? (seed % l.length)

/-- `class Random(Player)` — `__init__` stores nothing. -/
structure Random where

/-- `Random.get_move` — `random.choice(get_possible_moves(board))`.
    Result: (chosen move if any, the board object as the method leaves it). -/
def Random.get_move (seed : Nat) (b : ChessBoard L) :
    Option String × ChessBoard L :=
  let legal_moves := get_possible_moves L b.base
  (random_choice legal_moves seed, b)

/-- `chess.engine.Limit(time=0.1)` — the per-move time budget, in seconds,
    modelled as a rational number. -/
structure Limit where
  time : ℚ
deriving DecidableEq

/-- A value passed to `engine.configure`. -/
inductive OptValue where
  | boolv (v : Bool)
  | intv (v : Int)
deriving DecidableEq

/-- One observable command sent to the UCI engine subprocess. -/
inductive EngineCmd (L : ChessLib) where
  | configure (options : List (String × OptValue))
  | play (pos : L.Pos) (limit : Limit)

/-- The engine subprocess (`chess.engine.SimpleEngine`) as an oracle for
    `play`.  In the source the handle is class-level shared state
    (`Stockfish.engine`); we pass it explicitly. -/
structure Engine (L : ChessLib) where
  play : L.Pos → Limit → L.Move

/-- `class Stockfish(Player)` — stores the requested elo. -/
structure Stockfish where
  elo : Int

/-- `Stockfish.__init__` — `self.elo = elo`, with no range validation. -/
def Stockfish.init (elo : Int) : Stockfish := ⟨elo⟩

/-- `Stockfish._set_elo` — the two `engine.configure` calls it issues, in
    order. -/
def Stockfish.set_elo_cmds (p : Stockfish) : List (EngineCmd L) :=
  [.configure [("UCI_LimitStrength", .boolv true)],
   .configure [("UCI_Elo", .intv p.elo)]]

/-- `Stockfish.get_move` — `self._set_elo()`, then
    `self.engine.play(board, chess.engine.Limit(time=0.1))`, returning
    `str(result.move)` with no further checks.  Result: (returned move text,
    the board object as the method leaves it, engine commands in order). -/
def Stockfish.get_move (eng : Engine L) (p : Stockfish) (b : ChessBoard L) :
    String × ChessBoard L × List (EngineCmd L) :=
  let cfg := Stockfish.set_elo_cmds L p
  let result := eng.play b.base ⟨1/10⟩
  (L.move_str result, b, cfg ++ [.play b.base ⟨1/10⟩])

/-- The `results` mapping at the bottom of `main.py`. -/
def results : List (String × String) :=
  [("1/2-1/2", "tie"), ("1-0", "white_win"), ("0-1", "black_win")]

/-- Python `d[key]` on a dict modelled as an association list — `some`
    value, or `none` for the raised `KeyError`. -/
def dict_get (d : List (String × String)) (k : String) : Option String :=
  (d.find? (fun kv => kv.1 == k)).map (fun kv => kv.2)

/-- The `while not board.is_game_over()` loop of `main.py`, with explicit
    fuel.  `some` carries the board when the loop exits normally; `none`
    models a run aborted by an exception from `submit_move`, or exhausted
    fuel. -/
def game_loop (g : TextGen) (eng : Engine L) (white : Stockfish)
    (black : OpenAI) : Nat → ChessBoard L → Option (ChessBoard L)
  | 0, _ => none
  | fuel + 1, board =>
    if L.is_game_over board.base then some board
    else
      let turn := waiting_on L board
      let move := if turn = "white"
        then (Stockfish.get_move L eng white board).1
        else (OpenAI.get_move L black board).1
      match submit_move L board move with
      | (board2, none) => game_loop g eng white black fuel board2
      | (_, some _) => none

/-- Modelled from the spec (§4.3 step 1): a move history "in standard
    algebraic-move-number notation" — white/black half-move pairs prefixed
    by move numbers, e.g. `1. e4 e5 2. Nf3`.  Used only to state what the
    spec asserts the prompt contains, for comparison with what the code
    actually renders. -/
def numberedPairs : Nat → List String → List String
  | _, [] => []
  | n, [w] => [toString n ++ ". " ++ w]
  | n, w :: bk :: rest =>
    (toString n ++ ". " ++ w ++ " " ++ bk) :: numberedPairs (n + 1) rest

/-- Modelled from the spec: the full numbered algebraic rendering of a
    history of algebraic (SAN) half-moves. -/
def specNumberedHistory (sans : List String) : String :=
  String.intercalate " " (numberedPairs 1 sans)

/-!  A small concrete instance of the chess-library interface, used to
     evaluate the script's functions on explicit inputs.  Two moves exist;
     every position with fewer than four half-moves played accepts both of
     them (under their UCI or their SAN spelling), and the game is over —
     with a white win — once four half-moves have been played. -/

/-- Moves of the concrete mini chess library. -/
inductive MMove where
  | e4
  | nf3
deriving DecidableEq

/-- UCI rendering of a mini move (`str(move)`). -/
def mmove_str : MMove → String
  | .e4 => "e2e4"
  | .nf3 => "g1f3"

/-- SAN rendering of a mini move. -/
def msan : MMove → String
  | .e4 => "e4"
  | .nf3 => "Nf3"

/-- The concrete mini chess library. -/
def MiniLib : ChessLib where
  Pos := List MMove
  Move := MMove
  start := []
  parse_san p s :=
    if 4 ≤ p.length then none
    else if s == "e2e4" || s == "e4" then some .e4
    else if s == "g1f3" || s == "Nf3" then some .nf3
    else none
  san _ m := msan m
  push p m := p ++ [m]
  generate_legal_moves p := if 4 ≤ p.length then [] else [.e4, .nf3]
  move_str := mmove_str
  turn p := p.length % 2 == 0
  is_game_over p := decide (4 ≤ p.length)
  result p := if 4 ≤ p.length then "1-0" else "*"
  board_str _ := "r n b q k"
  move_stack p := p
  parse_legal := by
    intro p s m h
    simp only at h
    split at h
    · exact absurd h (by simp)
    · next hlen =>
      split at h
      · simp only [Option.some.injEq] at h
        simp [← h, hlen]
      · split at h
        · simp only [Option.some.injEq] at h
          simp [← h, hlen]
        · exact absurd h (by simp)
  nonterminal_moves := by
    intro p h
    simp only [decide_eq_false_iff_not] at h
    simp [h]
  result_terminal := by
    intro p h
    simp only [decide_eq_true_eq] at h
    simp [h]

/-- A stub text generator: its free-text analysis is the literal text
    `"e2e4"`, and its constrained choice is the first offered candidate. -/
def stubGen : TextGen where
  complete _ := "e2e4"
  choose _ cs := cs.headD ""

/-- A stub engine oracle that always answers the mini move `e2e4`. -/
def stubEng : Engine MiniLib where
  play _ _ := .e4

/-- The fresh board of the script (`board = ChessBoard()`), over the mini
    library. -/
def b0 : ChessBoard MiniLib := ChessBoard.init MiniLib

/-- The mini board after white's `e2e4` has been submitted. -/
def b1 : ChessBoard MiniLib := (submit_move MiniLib b0 "e2e4").1

/-- The board in which the mini game-loop run ends: four half-moves played,
    all of them `e2e4`, each recorded in the history as its SAN `e4`. -/
def bfinal : ChessBoard MiniLib :=
  ⟨[.e4, .e4, .e4, .e4], ["e4", "e4", "e4", "e4"]⟩

/-- A sequence of `submit_move` calls on one board, stopping at the first
    failure — the shape in which the game loop drives the board. -/
def run_submissions (b : ChessBoard L) :
    List String → ChessBoard L × Option String
  | [] => (b, none)
  | m :: ms =>
    match submit_move L b m with
    | (b2, none) => run_submissions b2 ms
    | (b2, some e) => (b2, some e)

/-- `small` occurs contiguously inside `big`. -/
def strContains (big small : String) : Prop :=
  ∃ s t, big.data = s ++ small.data ++ t

/-! Helper lemmas. -/

/-- The character data of an appended string. -/
theorem strdata_append (a b : String) : (a ++ b).data = a.data ++ b.data := by
  cases a
  cases b
  rfl

/-- A string occurs inside itself. -/
theorem strContains_self (x : String) : strContains x x :=
  ⟨[], [], by simp⟩

/-- Occurrence is preserved by appending on the left. -/
theorem strContains_left (a b x : String) (h : strContains b x) :
    strContains (a ++ b) x := by
  obtain ⟨s, t, hd⟩ := h
  exact ⟨a.data ++ s, t, by rw [strdata_append, hd]; simp⟩

/-- Occurrence is preserved by appending on the right. -/
theorem strContains_right (a b x : String) (h : strContains a x) :
    strContains (a ++ b) x := by
  obtain ⟨s, t, hd⟩ := h
  exact ⟨s, t ++ b.data, by rw [strdata_append, hd]; simp⟩

/-- Occurrence is transitive through an intermediate string. -/
theorem strContains_trans (big mid x : String) (h1 : strContains big mid)
    (h2 : strContains mid x) : strContains big x := by
  obtain ⟨s, t, hd1⟩ := h1
  obtain ⟨s2, t2, hd2⟩ := h2
  exact ⟨s ++ s2, t2 ++ t, by rw [hd1, hd2]; simp⟩

/-- The constrained choice of `stubGen` is one of its candidates. -/
theorem stubGen_choose_mem (p : String) (cs : List String) (h : cs ≠ []) :
    stubGen.choose p cs ∈ cs := by
  cases cs with
  | nil => exact absurd rfl h
  | cons a t => exact List.mem_cons_self a t

/-- `submit_move` on text that fails to parse returns before mutating
    anything: the board object is returned as it was, with the error. -/
theorem submit_move_parse_none (L : ChessLib) (b : ChessBoard L)
    (move : String) (h : L.parse_san b.base move = none) :
    submit_move L b move = (b, some "InvalidMoveError") := by
  unfold submit_move
  rw [h]

/-- `submit_move` on text that parses pushes the move and appends exactly
    its algebraic rendering to the history. -/
theorem submit_move_parse_some (L : ChessLib) (b : ChessBoard L)
    (move : String) (mv : L.Move) (h : L.parse_san b.base move = some mv) :
    submit_move L b move =
      ({ base := L.push b.base mv,
         algebraic_history := b.algebraic_history ++ [L.san b.base mv] },
       none) := by
  unfold submit_move
  rw [h]
  simp only [h]

/-- `random.choice` fails exactly on the empty sequence. -/
theorem random_choice_none_iff (l : List String) (seed : Nat) :
    random_choice l seed = none ↔ l = [] := by
  unfold random_choice
  constructor
  · intro h
    cases l with
    | nil => rfl
    | cons a t =>
      have hlt : seed % (a :: t).length < (a :: t).length :=
        Nat.mod_lt _ (by simp)
      rw [List.get?_eq_get hlt] at h
      exact absurd h (by simp)
  · intro h
    subst h
    simp

/-- Over one full period of seeds, `random.choice` takes exactly the
    elements of the sequence, the seed equal to each index yielding the
    element at that index. -/
theorem random_choice_uniform (l : List String) :
    (List.range l.length).map (fun r => random_choice l r) = l.map some := by
  apply List.ext_get
  · simp
  · intro n h1 h2
    simp only [List.length_map, List.length_range] at h1
    rw [List.get_map, List.get_map, List.get_range]
    unfold random_choice
    rw [Nat.mod_eq_of_lt h1]
    exact List.get?_eq_get h1

/-- `random.choice` depends on the seed only through its residue modulo the
    sequence length. -/
theorem random_choice_mod (l : List String) (seed : Nat) :
    random_choice l seed = random_choice l (seed % l.length) := by
  unfold random_choice
  rw [Nat.mod_mod_of_dvd _ (dvd_refl _)]

/-! Claim theorems. -/

/-- C1 counterexample: the claim also covers the two-stage `ai_move` path,
    and that function does raise — from the non-terminal initial position it
    surfaces `NameError` (its first prompt references module-level names
    `main.py` never defines) and returns no move at all, falsifying "never
    raising an error and never returning an illegal or malformed move". -/
theorem llm_ai_move_raises_counterexample :
    MiniLib.is_game_over b0.base = false
    ∧ (ai_move MiniLib stubGen b0).1 = Except.error "NameError"
    ∧ (ai_move MiniLib stubGen b0).2 = [] :=
  ⟨rfl, rfl, rfl⟩

/-- C1 (amended): for every non-terminal position, `OpenAI.get_move` — the
    LLM player's `get_move` the program actually runs — returns a move that
    is a member of the legal-move list computed for that position at the
    time of the call, assuming the constrained-choice collaborator returns
    one of its supplied choices, and raises nothing; the two-stage
    `ai_move` variant instead raises `NameError` on every call (it
    references undefined module-level names) and never produces a move. -/
theorem llm_get_move_legal (L : ChessLib) (g : TextGen) (b : ChessBoard L)
    (hterm : L.is_game_over b.base = false)
    (hchoose : ∀ prompt choices, choices ≠ [] →
      g.choose prompt choices ∈ choices) :
    (OpenAI.get_move L ⟨g⟩ b).1 ∈ get_possible_moves L b.base
    ∧ (ai_move L g b).1 = Except.error "NameError" := by
  have hmoves : get_possible_moves L b.base ≠ [] := by
    have h2 := L.nonterminal_moves b.base hterm
    simp only [get_possible_moves, ne_eq, List.map_eq_nil]
    exact h2
  exact ⟨hchoose _ _ hmoves, rfl⟩

/-- C1 witness: on the concrete mini library with a stub model that picks
    the first offered choice, `OpenAI.get_move` returns a legal move from
    the initial position while `ai_move` surfaces the `NameError`. -/
theorem llm_get_move_legal_witness :
    (OpenAI.get_move MiniLib ⟨stubGen⟩ b0).1 ∈ get_possible_moves MiniLib b0.base
    ∧ (ai_move MiniLib stubGen b0).1 = Except.error "NameError" :=
  llm_get_move_legal MiniLib stubGen b0 rfl
    (fun p cs h => stubGen_choose_mem p cs h)

/-- C2 counterexample: at the concrete initial position the code does none
    of what the claim describes.  The two-stage `ai_move` surfaces an error
    to its caller after zero constrained-choice requests — no parse failure
    is caught internally and no fallback is triggered — while the
    `OpenAI.get_move` the program runs issues its constrained request
    exactly once even though the move text it obtains parses as a legal
    move, where the claim requires the constrained fallback not to be
    invoked at all. -/
theorem ai_move_no_fallback_branch_counterexample :
    (ai_move MiniLib stubGen b0).1 = Except.error "NameError"
    ∧ chooseCount (ai_move MiniLib stubGen b0).2 = 0
    ∧ chooseCount (OpenAI.get_move MiniLib ⟨stubGen⟩ b0).2.2 = 1
    ∧ (MiniLib.parse_san b0.base
        (OpenAI.get_move MiniLib ⟨stubGen⟩ b0).1).isSome = true :=
  ⟨rfl, rfl, rfl, rfl⟩

/-- C2 (amended): the code's per-move protocol has no parse step and no
    conditional fallback.  `OpenAI.get_move` issues exactly one
    constrained-choice request, unconditionally, and never parses any
    extracted move text; the two-stage `ai_move` raises `NameError` while
    evaluating its first prompt — before issuing any model request — and
    surfaces that error to the caller. -/
theorem ai_move_call_trace (L : ChessLib) (g : TextGen) (b : ChessBoard L) :
    (OpenAI.get_move L ⟨g⟩ b).2.2 =
      [.chooseCall (openai_prompt L b) (get_possible_moves L b.base)]
    ∧ chooseCount (OpenAI.get_move L ⟨g⟩ b).2.2 = 1
    ∧ (ai_move L g b).1 = Except.error "NameError"
    ∧ (ai_move L g b).2 = [] :=
  ⟨rfl, rfl, rfl, rfl⟩

/-- C3 counterexample: the analysis prompt is never constructed — at the
    concrete position after one submitted move its evaluation raises
    `NameError` — and the history rendering the code interpolates into the
    prompt it does build is the Python list of UCI strings `['e2e4']`,
    which differs from the algebraic-move-number rendering `1. e4` of the
    same history. -/
theorem ai_move_history_not_numbered_counterexample :
    ai_move_raw_prompt MiniLib b1 = Except.error "NameError"
    ∧ pyStrList (get_move_history MiniLib b1)
        = "[" ++ sq ++ "e2e4" ++ sq ++ "]"
    ∧ specNumberedHistory b1.algebraic_history = "1. e4"
    ∧ pyStrList (get_move_history MiniLib b1)
        ≠ specNumberedHistory b1.algebraic_history := by
  refine ⟨rfl, rfl, rfl, by decide⟩

/-- C3 (amended): the two-stage analysis prompt is never produced — its
    construction raises `NameError` at the undefined module-level
    `get_move_history` reference — and the first (and only) prompt the LLM
    player actually sends, the `OpenAI.get_move` prompt, embeds the full
    move history rendered as the Python list of the UCI strings of the
    move stack (not in algebraic-move-number notation), together with the
    textual board rendering and the upper-cased side to move, instructing
    the model to return only the next best move with no explanation of any
    kind. -/
theorem ai_move_prompt_embeds (L : ChessLib) (b : ChessBoard L) :
    ai_move_raw_prompt L b = Except.error "NameError"
    ∧ strContains (openai_prompt L b) (pyStrList (get_move_history L b))
    ∧ strContains (openai_prompt L b) (prettify_board L b.base)
    ∧ strContains (openai_prompt L b) ((waiting_on L b).toUpper)
    ∧ strContains (openai_prompt L b)
        "Determine the next best move. Return only the next best\nmove; no explanation of any kind. Use UCI notation."
    ∧ get_move_history L b = (L.move_stack b.base).map L.move_str := by
  unfold openai_prompt
  refine ⟨rfl, ?_, ?_, ?_, ?_, rfl⟩
  · apply strContains_right
    apply strContains_right
    apply strContains_right
    apply strContains_right
    apply strContains_right
    apply strContains_left
    exact strContains_self _
  · apply strContains_right
    apply strContains_right
    apply strContains_right
    apply strContains_left
    exact strContains_self _
  · apply strContains_right
    apply strContains_left
    exact strContains_self _
  · apply strContains_left
    exact ⟨(" to move.\n\n").data, ("\n        ").data, by rfl⟩

/-- C4: submitting text that does not parse as a legal move in the current
    position makes `submit_move` fail with the parse error, and the board —
    both the underlying position and the algebraic move history — is
    returned exactly as it was. -/
theorem submit_move_rejects_illegal (L : ChessLib) (b : ChessBoard L)
    (move : String) (h : L.parse_san b.base move = none) :
    submit_move L b move = (b, some "InvalidMoveError") :=
  submit_move_parse_none L b move h

/-- C4 witness: on the mini library, submitting the garbage text `zzzz`
    from the initial board fails and leaves the board untouched. -/
theorem submit_move_rejects_illegal_witness :
    MiniLib.parse_san b0.base "zzzz" = none
    ∧ submit_move MiniLib b0 "zzzz" = (b0, some "InvalidMoveError") :=
  ⟨rfl, submit_move_rejects_illegal MiniLib b0 "zzzz" rfl⟩

/-- C5: a successful `submit_move` appends exactly the algebraic rendering
    of the submitted move at the end of the history, leaving all earlier
    entries unchanged, and any sequence of successful submissions grows the
    history by exactly one entry per applied move. -/
theorem history_append_only (L : ChessLib) (b : ChessBoard L) (m : String)
    (ms : List String)
    (h1 : (submit_move L b m).2 = none)
    (h2 : (run_submissions L b ms).2 = none) :
    (∃ mv, L.parse_san b.base m = some mv
      ∧ (submit_move L b m).1.algebraic_history =
          b.algebraic_history ++ [L.san b.base mv])
    ∧ ∃ tail, (run_submissions L b ms).1.algebraic_history =
          b.algebraic_history ++ tail ∧ tail.length = ms.length := by
  constructor
  · cases hp : L.parse_san b.base m with
    | none =>
      rw [submit_move_parse_none L b m hp] at h1
      exact absurd h1 (by simp)
    | some mv =>
      exact ⟨mv, rfl, by rw [submit_move_parse_some L b m mv hp]⟩
  · clear h1
    induction ms generalizing b with
    | nil => exact ⟨[], by simp [run_submissions]⟩
    | cons m2 ms2 ih =>
      rw [run_submissions] at h2 ⊢
      cases hp : L.parse_san b.base m2 with
      | none =>
        rw [submit_move_parse_none L b m2 hp] at h2 ⊢
        exact absurd h2 (by simp)
      | some mv =>
        rw [submit_move_parse_some L b m2 mv hp] at h2 ⊢
        obtain ⟨tail, ht, hl⟩ := ih _ h2
        refine ⟨L.san b.base mv :: tail, ?_, by simp [hl]⟩
        rw [ht]
        simp

/-- C5 witness: from the initial mini board, submitting `e2e4` appends its
    SAN `e4`, and the successful two-move sequence `e4`, `g1f3` grows the
    history by exactly two entries. -/
theorem history_append_only_witness :
    (∃ mv, MiniLib.parse_san b0.base "e2e4" = some mv
      ∧ (submit_move MiniLib b0 "e2e4").1.algebraic_history =
          b0.algebraic_history ++ [MiniLib.san b0.base mv])
    ∧ ∃ tail, (run_submissions MiniLib b0 ["e4", "g1f3"]).1.algebraic_history =
          b0.algebraic_history ++ tail ∧ tail.length = (["e4", "g1f3"] : List String).length :=
  history_append_only MiniLib b0 "e2e4" ["e4", "g1f3"] rfl rfl

/-- C6: every call to `Stockfish.get_move` issues, in order, the
    strength-limiting configuration, the target-rating configuration with
    the player's stored elo, and then the play request with the fixed
    0.1-second time budget; the returned text is the UCI rendering of
    whatever move the engine oracle answers, with no legality validation of
    any kind. -/
theorem stockfish_get_move_protocol (L : ChessLib) (eng : Engine L)
    (p : Stockfish) (b : ChessBoard L) :
    (Stockfish.get_move L eng p b).2.2 =
      [.configure [("UCI_LimitStrength", .boolv true)],
       .configure [("UCI_Elo", .intv p.elo)],
       .play b.base ⟨1/10⟩]
    ∧ (Stockfish.get_move L eng p b).1 = L.move_str (eng.play b.base ⟨1/10⟩) :=
  ⟨rfl, rfl⟩

/-- C7: `Stockfish.__init__` performs no validation of its strength
    parameter — for every integer rating, even one outside the valid range
    1320–3190, construction succeeds, the value is stored unchanged, and
    `_set_elo` later passes exactly that value to the engine. -/
theorem stockfish_elo_unvalidated (L : ChessLib) (elo : Int)
    (h : ¬(1320 ≤ elo ∧ elo ≤ 3190)) :
    (Stockfish.init elo).elo = elo
    ∧ Stockfish.set_elo_cmds L (Stockfish.init elo) =
      [.configure [("UCI_LimitStrength", .boolv true)],
       .configure [("UCI_Elo", .intv elo)]] :=
  ⟨rfl, rfl⟩

/-- C7 witness: the out-of-range rating 5000 is accepted and passed to the
    engine unchanged. -/
theorem stockfish_elo_unvalidated_witness :
    (Stockfish.init 5000).elo = 5000
    ∧ Stockfish.set_elo_cmds MiniLib (Stockfish.init 5000) =
      [.configure [("UCI_LimitStrength", .boolv true)],
       .configure [("UCI_Elo", .intv 5000)]] :=
  stockfish_elo_unvalidated MiniLib 5000 (by decide)

/-- C8: for a non-terminal position `Random.get_move` returns a member of
    the legal-move list; it can fail only when that list is empty, which a
    non-terminal position excludes; and the sampling is uniform — one full
    period of seeds enumerates exactly the legal moves, and every seed acts
    through its residue modulo the list length. -/
theorem random_get_move_uniform_legal (L : ChessLib) (b : ChessBoard L)
    (seed : Nat) (h : L.is_game_over b.base = false) :
    (∃ m, (Random.get_move L seed b).1 = some m
      ∧ m ∈ get_possible_moves L b.base)
    ∧ ((Random.get_move L seed b).1 = none ↔
        get_possible_moves L b.base = [])
    ∧ (List.range (get_possible_moves L b.base).length).map
        (fun r => random_choice (get_possible_moves L b.base) r)
        = (get_possible_moves L b.base).map some
    ∧ ∀ s2 : Nat, random_choice (get_possible_moves L b.base) s2
        = random_choice (get_possible_moves L b.base)
            (s2 % (get_possible_moves L b.base).length) := by
  have hmoves : get_possible_moves L b.base ≠ [] := by
    have h2 := L.nonterminal_moves b.base h
    simp only [get_possible_moves, ne_eq, List.map_eq_nil]
    exact h2
  refine ⟨?_, random_choice_none_iff _ _, random_choice_uniform _,
    fun s2 => random_choice_mod _ s2⟩
  cases hc : random_choice (get_possible_moves L b.base) seed with
  | none => exact absurd ((random_choice_none_iff _ _).mp hc) hmoves
  | some m =>
    exact ⟨m, hc, List.get?_mem hc⟩

/-- C8 witness: from the initial mini board, seed 0 picks a legal move, and
    failure is equivalent to the legal list being empty. -/
theorem random_get_move_uniform_legal_witness :
    (∃ m, (Random.get_move MiniLib 0 b0).1 = some m
      ∧ m ∈ get_possible_moves MiniLib b0.base)
    ∧ ((Random.get_move MiniLib 0 b0).1 = none ↔
        get_possible_moves MiniLib b0.base = []) := by
  have H := random_get_move_uniform_legal MiniLib b0 0 rfl
  exact ⟨H.1, H.2.1⟩

/-- C9: every player's `get_move` — Random, OpenAI and Stockfish — returns
    the board object exactly as it received it (position and algebraic
    history both untouched), while a successful `submit_move`, the game
    loop's mutation step, does change the board's history. -/
theorem players_leave_board_unchanged (L : ChessLib) (g : TextGen)
    (eng : Engine L) (p : Stockfish) (seed : Nat) (b : ChessBoard L) :
    (Random.get_move L seed b).2 = b
    ∧ (OpenAI.get_move L ⟨g⟩ b).2.1 = b
    ∧ (Stockfish.get_move L eng p b).2.1 = b
    ∧ ∀ m, (submit_move L b m).2 = none →
        (submit_move L b m).1.algebraic_history ≠ b.algebraic_history := by
  refine ⟨rfl, rfl, rfl, ?_⟩
  intro m hm
  cases hp : L.parse_san b.base m with
  | none =>
    rw [submit_move_parse_none L b m hp] at hm
    exact absurd hm (by simp)
  | some mv =>
    rw [submit_move_parse_some L b m mv hp]
    intro hcontra
    have hlen := congrArg List.length hcontra
    simp at hlen

/-- C9 witness: on the mini library all three players hand the initial
    board back unchanged, while submitting `e2e4` changes the history. -/
theorem players_leave_board_unchanged_witness :
    (Random.get_move MiniLib 0 b0).2 = b0
    ∧ (OpenAI.get_move MiniLib ⟨stubGen⟩ b0).2.1 = b0
    ∧ (Stockfish.get_move MiniLib stubEng ⟨1320⟩ b0).2.1 = b0
    ∧ (submit_move MiniLib b0 "e2e4").1.algebraic_history ≠
        b0.algebraic_history := by
  have H := players_leave_board_unchanged MiniLib stubGen stubEng ⟨1320⟩ 0 b0
  exact ⟨H.1, H.2.1, H.2.2.1, H.2.2.2 "e2e4" rfl⟩

/-- C10: when the game loop exits normally the final position is terminal,
    its result string is one of exactly `1-0`, `0-1`, `1/2-1/2` — never the
    unfinished marker `*` — and so the final lookup in the `results`
    mapping always succeeds, yielding the matching outcome class. -/
theorem game_result_lookup_total (L : ChessLib) (g : TextGen)
    (eng : Engine L) (white : Stockfish) (black : OpenAI) (fuel : Nat)
    (b bf : ChessBoard L)
    (h : game_loop L g eng white black fuel b = some bf) :
    L.is_game_over bf.base = true
    ∧ (L.result bf.base = "1-0" ∨ L.result bf.base = "0-1"
        ∨ L.result bf.base = "1/2-1/2")
    ∧ ∃ v, dict_get results (L.result bf.base) = some v
        ∧ (v = "white_win" ∨ v = "black_win" ∨ v = "tie") := by
  induction fuel generalizing b with
  | zero => exact absurd h (by simp [game_loop])
  | succ n ih =>
    rw [game_loop] at h
    split at h
    · next hterm =>
      injection h with hbf
      subst hbf
      refine ⟨hterm, L.result_terminal _ hterm, ?_⟩
      rcases L.result_terminal _ hterm with h1 | h1 | h1 <;> rw [h1]
      · exact ⟨"white_win", rfl, Or.inl rfl⟩
      · exact ⟨"black_win", rfl, Or.inr (Or.inl rfl)⟩
      · exact ⟨"tie", rfl, Or.inr (Or.inr rfl)⟩
    · dsimp only at h
      split at h
      · exact ih _ h
      · exact absurd h (by simp)

/-- C10 witness: the mini game-loop run from the initial board ends in a
    terminal position whose result `1-0` is found in the `results` mapping
    as `white_win`. -/
theorem game_result_lookup_total_witness :
    MiniLib.is_game_over bfinal.base = true
    ∧ (MiniLib.result bfinal.base = "1-0"
        ∨ MiniLib.result bfinal.base = "0-1"
        ∨ MiniLib.result bfinal.base = "1/2-1/2")
    ∧ ∃ v, dict_get results (MiniLib.result bfinal.base) = some v
        ∧ (v = "white_win" ∨ v = "black_win" ∨ v = "tie") :=
  game_result_lookup_total MiniLib stubGen stubEng ⟨1320⟩ ⟨stubGen⟩ 5 b0
    bfinal rfl

end GptChess
